import Mathlib

/-!
Verification of the orochi plugin-orchestration core
(`orochi/utils/volatility_dask_elk.py` and `orochi/website/models.py`),
as a shallow embedding in Lean 4.

External collaborators (the volatility engine, elasticsearch, the dask
worker pool, the VirusTotal client, regipy, 7z, the Django ORM) are
modelled as explicit inputs: an engine invocation outcome, a fetch
result, a lookup outcome, a table of rows.  All functions are executable
translations of the corresponding Python source.
-/

namespace Orochi

/-! ## Status constants (orochi/website/models.py) -/

def DUMP_STATUS_CREATED : Nat := 1
def DUMP_STATUS_COMPLETED : Nat := 2
def DUMP_STATUS_DELETED : Nat := 3
def DUMP_STATUS_ERROR : Nat := 4

def RESULT_STATUS_RUNNING : Nat := 0
def RESULT_STATUS_EMPTY : Nat := 1
def RESULT_STATUS_SUCCESS : Nat := 2
def RESULT_STATUS_UNSATISFIED : Nat := 3
def RESULT_STATUS_ERROR : Nat := 4
def RESULT_STATUS_DISABLED : Nat := 5

/-- Operating-system tag of a `Dump` / `Plugin`
(`OPERATING_SYSTEM` choices in models.py). -/
inductive OS where
  | linux
  | windows
  | mac
  | other
deriving DecidableEq, Repr

/-- Model of `Dump.get_operating_system_display()`: the display label of the
OS choice (labels coincide with the stored values in models.py). -/
def OS.display : OS → String
  | .linux => "Linux"
  | .windows => "Windows"
  | .mac => "Mac"
  | .other => "Other"

/-! ## Small string helpers (Python semantics) -/

/-- Python `"\n".join(l)`. -/
def joinNl (l : List String) : String := String.intercalate "\n" l

/-- Membership of `needle` in `hay` as a contiguous substring:
Python `hay.find(needle) != -1`, equivalently `needle in hay`. -/
def containsSub (hay needle : List Char) : Bool :=
  match hay with
  | [] => needle.isEmpty
  | _ :: t => needle.isPrefixOf hay || containsSub t needle

/-- Python `needle in hay` on strings. -/
def strContains (hay needle : String) : Bool :=
  containsSub hay.toList needle.toList

/-- ASCII lower-casing of one character (Python `str.lower` restricted
to ASCII). -/
def pyCharToLower (c : Char) : Char :=
  if 'A' ≤ c ∧ c ≤ 'Z' then Char.ofNat (c.toNat + 32) else c

/-- Python `s.lower()` (ASCII). -/
def strToLower (s : String) : String :=
  String.mk (s.toList.map pyCharToLower)

/-- Python `s.split(sep)` for a one-character separator, on a list of
characters. -/
def splitOnCharL (sep : Char) : List Char → List (List Char)
  | [] => [[]]
  | c :: rest =>
    match splitOnCharL sep rest with
    | h :: t => if c = sep then [] :: h :: t else (c :: h) :: t
    | [] => if c = sep then [[], []] else [[c]]

/-- Python `s.split(sep)` for a one-character separator. -/
def strSplitOn (sep : Char) (s : String) : List String :=
  (splitOnCharL sep s.toList).map String.mk

/-- Python `s.endswith(suffix)`. -/
def strEndsWith (s suf : String) : Bool :=
  suf.toList.reverse.isPrefixOf s.toList.reverse

/-- Truthiness of an optional Python string (`None` and `""` are falsy). -/
def pyTruthyStr : Option String → Bool
  | none => false
  | some s => s ≠ ""

/-- Python `s.strip("\"'")`: remove all leading and trailing double or
single quotes (used on the banner fetched from the index). -/
def stripQuotes (s : String) : String :=
  let q : Char → Bool := fun c => c = '"' || c = '\x27'
  String.mk (((s.toList.dropWhile q).reverse.dropWhile q).reverse)

/-- Python `bytes.rstrip(b"\n\00")` on a decoded banner: remove trailing
newline and NUL characters. -/
def rstripNlNul (s : String) : String :=
  String.mk ((s.toList.reverse.dropWhile (fun c => c = '\n' || c = '\x00')).reverse)

/-! ## BANNER_REGEX

Source line 75:
`r'^"?Linux version (?P<kernel>\S+) (?P<build>.+) \(((?P<gcc>gcc.+)) #(?P<number>\d+)(?P<info>.+)$"?'`

The embedding below reproduces `re.match` of this pattern with Python's
greedy-backtracking semantics, specialised to the fixed pattern:
* `"?` at the start consumes a quote exactly when one is present
  (a quote is never a valid start of the following literal, so no
  backtracking arises);
* `\S+` followed by a literal space deterministically takes the maximal
  run of non-whitespace characters (giving back characters can never
  make the following space match);
* each `.+` is greedy with full backtracking, `.` matches any character
  except a newline;
* `$` matches at the end of the string or just before a single trailing
  newline; the trailing `"?` after `$` can therefore never consume
  anything and is dropped.
-/

/-- Python `\s` (whitespace) on ASCII. -/
def pyWs (c : Char) : Bool :=
  c = ' ' || c = '\t' || c = '\n' || c = '\r' || c = '\x0b' || c = '\x0c'

/-- Python `\d` restricted to ASCII digits. -/
def pyDigit (c : Char) : Bool := c.isDigit

/-- Named capture groups of `BANNER_REGEX`. -/
structure BannerGroups where
  kernel : String
  build : String
  gcc : String
  number : String
  info : String
deriving DecidableEq, Repr

/-- Match `.+$` against `r` and return the characters bound by `.+`:
greedy `.+` (no newlines) followed by end-of-string, where `$` also
matches just before one final trailing newline. -/
def matchDotPlusEnd (r : List Char) : Option (List Char) :=
  let core := if r.getLast? = some '\n' then r.dropLast else r
  if core.isEmpty then none
  else if core.any (fun c => c = '\n') then none
  else some core

/-- Backtracking for `\d+` followed by `.+$`: `ds` is the reversed
greedy digit prefix still assigned to `\d+`, `rest` the remainder; on
failure one digit is given back to the `.+` group. -/
def numInfoSplit : List Char → List Char → Option (List Char × List Char)
  | [], _ => none
  | d :: sd, rest =>
    match matchDotPlusEnd rest with
    | some info => some ((d :: sd).reverse, info)
    | none => numInfoSplit sd (d :: rest)

/-- Match `(?P<number>\d+)(?P<info>.+)$` against `r`. -/
def matchNumInfo (r : List Char) : Option (List Char × List Char) :=
  numInfoSplit (r.takeWhile pyDigit).reverse (r.dropWhile pyDigit)

/-- Match ` #(?P<number>\d+)(?P<info>.+)$` against `r`. -/
def matchHashNumInfo (r : List Char) : Option (List Char × List Char) :=
  match r with
  | ' ' :: '#' :: rest => matchNumInfo rest
  | _ => none

/-- Backtracking for the `.+` inside the gcc group followed by
` #(?P<number>\d+)(?P<info>.+)$`: `preRev` is the reversed candidate
content of `.+` (longest first), `suf` the remaining suffix. -/
def gccSplit : List Char → List Char → Option (List Char × List Char × List Char)
  | [], _ => none
  | c :: preRev, suf =>
    match
      (if (c :: preRev).all (fun ch => ch ≠ '\n') then
        match matchHashNumInfo suf with
        | some (num, info) => some ((c :: preRev).reverse, num, info)
        | none => none
      else none : Option (List Char × List Char × List Char))
    with
    | some res => some res
    | none => gccSplit preRev (c :: suf)

/-- Match `((?P<gcc>gcc.+)) #(?P<number>\d+)(?P<info>.+)$` against `r`;
returns the content of `.+` after the literal `gcc`, the number and the
info groups. -/
def matchGcc (r : List Char) : Option (List Char × List Char × List Char) :=
  match r with
  | 'g' :: 'c' :: 'c' :: rest => gccSplit rest.reverse []
  | _ => none

/-- Backtracking for `(?P<build>.+) \(` followed by the gcc part:
`preRev` is the reversed candidate build (longest first), `suf` the
remaining suffix, which must start with a space and `(`. -/
def buildSplit :
    List Char → List Char → Option (List Char × List Char × List Char × List Char)
  | [], _ => none
  | c :: preRev, suf =>
    match
      (if (c :: preRev).all (fun ch => ch ≠ '\n') then
        match suf with
        | ' ' :: '(' :: rest =>
          match matchGcc rest with
          | some (g, num, info) => some ((c :: preRev).reverse, g, num, info)
          | none => none
        | _ => none
      else none : Option (List Char × List Char × List Char × List Char))
    with
    | some res => some res
    | none => buildSplit preRev (c :: suf)

/-- Strip a literal prefix, or fail. -/
def stripLit : List Char → List Char → Option (List Char)
  | [], r => some r
  | p :: ps, r =>
    match r with
    | c :: cs => if c = p then stripLit ps cs else none
    | [] => none

/-- Model of `re.match(BANNER_REGEX, s)` on a list of characters. -/
def bannerMatchL (s0 : List Char) : Option BannerGroups :=
  let s1 := match s0 with
    | '"' :: t => t
    | t => t
  match stripLit "Linux version ".toList s1 with
  | none => none
  | some r1 =>
    let kern := r1.takeWhile (fun c => ¬ pyWs c)
    let r2 := r1.dropWhile (fun c => ¬ pyWs c)
    if kern.isEmpty then none
    else
      match r2 with
      | ' ' :: r3 =>
        match buildSplit r3.reverse [] with
        | some (build, gccContent, num, info) =>
          some ⟨String.mk kern, String.mk build,
            String.mk ('g' :: 'c' :: 'c' :: gccContent),
            String.mk num, String.mk info⟩
        | none => none
      | _ => none

/-- Model of `re.match(BANNER_REGEX, banner)`. -/
def bannerMatch (s : String) : Option BannerGroups :=
  bannerMatchL s.toList

/-! ## check_runnable (lines 744-797)

The dump's primary key is only used for logging and is dropped.  The
automagic subsystem is modelled by its observable input: `none` when no
automagic with config path `automagic.LinuxSymbolFinder` is found (the
comprehension at line 771 is empty, falsy), `some l` when it is found
and carries the locally available symbol banners `l` (already decoded
from bytes). -/

/-- One iteration of the banner-cache loop (lines 774-783): skip falsy
banners, strip trailing newline/NUL, parse with `BANNER_REGEX` and
compare the kernel group with the dump's kernel. -/
def symBannerHit (dumpKernel : Option String) (ab : String) : Bool :=
  if ab = "" then false
  else
    match bannerMatch (rstripNlNul ab) with
    | some g => some g.kernel = dumpKernel
    | none => false

/-- The `for active_banner in banners[0].banners` loop: `true` at the
first hit, `false` when the list is exhausted (line 794). -/
def scanBanners (dumpKernel : Option String) : List String → Bool
  | [] => false
  | ab :: rest => if symBannerHit dumpKernel ab then true else scanBanners dumpKernel rest

/-- Model of `check_runnable(dump_pk, operating_system, banner)`. -/
def check_runnable (operating_system : OS) (banner : Option String)
    (availableBanners : Option (List String)) : Bool :=
  match operating_system with
  | .windows => true
  | .mac => true
  | .linux =>
    if ¬ pyTruthyStr banner then false
    else
      let dump_kernel : Option String :=
        match bannerMatch (banner.getD "") with
        | some m => some m.kernel
        | none => none
      match availableBanners with
      | some l => scanBanners dump_kernel l
      | none => false
  | .other => false

/-! ## get_path_from_banner (lines 645-722)

Network access (`requests.get` + BeautifulSoup anchor extraction) is
modelled by a `Fetch` input: `fail` when the request or the parse
raises, `links hs` when it yields anchors whose `href` attributes are
`hs` (`none` for an anchor without `href`). -/

inductive Fetch where
  | fail
  | links (hrefs : List (Option String))
deriving DecidableEq, Repr

def OS_WIP_HINT : String := "[OS wip] insert here symbols url!"
def DOWNLOAD_FAIL_HINT : String := "[Download fail] insert here symbols url!"
def BANNER_PARSE_FAIL_HINT : String := "[Banner parse fail] insert here symbols url!"

/-- Architecture detection (lines 654-662 and 688-696): first of
amd64/arm64/i386 found as a substring of the lower-cased banner. -/
def detectArch (banner : String) : Option String :=
  let lb := strToLower banner
  if strContains lb "amd64" then some "amd64"
  else if strContains lb "arm64" then some "arm64"
  else if strContains lb "i386" then some "i386"
  else none

/-- The Ubuntu anchor loop (lines 669-682): first href containing the
package name (or its `unsigned` alternative) together with the
architecture wins. -/
def ubuntuScan (url pkg alt arch : String) : List (Option String) → Option String
  | [] => none
  | none :: rest => ubuntuScan url pkg alt arch rest
  | some href :: rest =>
    if strContains href pkg && strContains href arch then some (url ++ href)
    else if strContains href alt && strContains href arch then some (url ++ href)
    else ubuntuScan url pkg alt arch rest

/-- Outcome of the Debian anchor loop. -/
inductive ScanRes where
  | found (u : String)
  | dlFail
  | noMatch
deriving DecidableEq, Repr

/-- The Debian anchor loop (lines 702-717): for each href containing
the package name, unpack `href.split("_")` into exactly three parts
(a `ValueError` is caught and returns the download-fail placeholder),
and match kernel, info and architecture. -/
def debianScan (url pkg info arch : String) : List (Option String) → ScanRes
  | [] => .noMatch
  | none :: rest => debianScan url pkg info arch rest
  | some href :: rest =>
    if strContains href pkg then
      match strSplitOn '_' href with
      | [pKernel, pInfo, pArch0] =>
        let pArch := ((strSplitOn '.' pArch0).headD "")
        if strContains pKernel pkg && strContains info pInfo && pArch = arch then
          .found (url ++ href)
        else debianScan url pkg info arch rest
      | _ => .dlFail
    else debianScan url pkg info arch rest

/-- Model of `get_path_from_banner(banner)`.  When the Ubuntu (resp. Debian)
anchor loop finds no matching link, control falls out of the branch and
reaches the final `return` at line 722, producing the banner-parse-fail
placeholder even though the banner parsed. -/
def get_path_from_banner (banner : String) (ubuntuFetch debianFetch : Fetch) :
    List String :=
  match bannerMatch banner with
  | some m =>
    if strContains (strToLower m.gcc) "ubuntu" || strContains (strToLower m.info) "ubuntu" then
      match detectArch banner with
      | none => [OS_WIP_HINT]
      | some arch =>
        let pkg := "linux-image-" ++ m.kernel
        let alt := "linux-image-unsigned-" ++ m.kernel
        let url := "http://ddebs.ubuntu.com/ubuntu/pool/main/l/linux/"
        match ubuntuFetch with
        | .fail => [DOWNLOAD_FAIL_HINT]
        | .links hs =>
          match ubuntuScan url pkg alt arch hs with
          | some u => [u]
          | none => [BANNER_PARSE_FAIL_HINT]
    else if strContains (strToLower m.gcc) "debian" || strContains (strToLower m.info) "debian" then
      match detectArch banner with
      | none => [OS_WIP_HINT]
      | some arch =>
        let pkg := "linux-image-" ++ m.kernel ++ "-dbg"
        let url := "https://deb.sipwise.com/debian/pool/main/l/linux/"
        match debianFetch with
        | .fail => [DOWNLOAD_FAIL_HINT]
        | .links hs =>
          match debianScan url pkg m.info arch hs with
          | .found u => [u]
          | .dlFail => [DOWNLOAD_FAIL_HINT]
          | .noMatch => [BANNER_PARSE_FAIL_HINT]
    else [OS_WIP_HINT]
  | none => [BANNER_PARSE_FAIL_HINT]

/-! ## gendata and run_plugin (lines 204-210 and 348-642)

A rendered row and an elastic `_source` document are association lists
of string fields (JSON values abstracted as strings).  `uuid.uuid4()`
is modelled by an injective id supply: the `i`-th document of a batch
starting at supply position `n` gets id `n + i`. -/

/-- One rendered row / one `_source` document. -/
abbrev Item := List (String × String)

/-- Python `item.update(other_info)`: keys of `other_info` override the
ones of `item`. -/
def updateItem (item info : Item) : Item :=
  item.filter (fun kv => !(info.map Prod.fst).contains kv.fst) ++ info

/-- One document submitted to the elastic bulk helper. -/
structure EsDoc where
  index : String
  id : Nat
  source : Item
deriving DecidableEq, Repr

/-- Model of `gendata(index, result, other_info)` (lines 204-210): one document
per rendered row, enriched with `other_info` and a fresh id. -/
def gendata (index : String) (result : List Item) (other_info : Item)
    (startId : Nat) : List EsDoc :=
  match result with
  | [] => []
  | item :: rest =>
    ⟨index, startId, updateItem item other_info⟩ ::
      gendata index rest other_info (startId + 1)

/-- A `datetime.datetime.now()` value: seconds since epoch plus a
microsecond part. -/
structure PyTime where
  sec : Nat
  micro : Nat
deriving DecidableEq, Repr

/-- Model of `.replace(microsecond=0)`. -/
def replaceMicrosecond (t : PyTime) : PyTime := ⟨t.sec, 0⟩

/-- Model of `.isoformat()`: the rendering carries the microsecond part exactly
when it is non-zero. -/
def isoformat (t : PyTime) : String :=
  toString t.sec ++ (if t.micro = 0 then "" else "." ++ toString t.micro)

/-- Outcome of the analysis-engine part of one `run_plugin` invocation:
`unsatisfied` is the `UnsatisfiedException` from `construct_plugin`
(line 464) carrying the unmet-requirement descriptions; `failure` is
any other exception raised while executing (handlers at lines 484 and
631) carrying the formatted traceback lines; `rendered` is a completed
run with its rendered rows and the renderer's non-fatal error value. -/
inductive EngineOutcome where
  | unsatisfied (unmet : List String)
  | failure (fulltrace : List String)
  | rendered (rows : List Item) (renderError : String)
deriving DecidableEq, Repr

/-- Outcome of the post-render phase (file materialisation, clamav,
fan-out, elastic bulk + settings) entered only when rows exist:
`ok`, or an exception caught by the outer handler at line 631, raised
either before or after the bulk submission went through. -/
inductive SinkOutcome where
  | ok
  | failBeforeBulk (fulltrace : List String)
  | failAfterBulk (fulltrace : List String)
deriving DecidableEq, Repr

/-- Identity of the (dump, plugin) pair a `run_plugin` invocation works
on. -/
structure PluginCtx where
  dumpName : String
  dumpIndex : String
  dumpOS : OS
  pluginName : String
deriving DecidableEq, Repr

/-- Observable outcome of one `run_plugin` invocation: the terminal
value written to the Result row and the documents submitted to the
index. -/
structure RunOutcome where
  result : Nat
  description : String
  docs : List EsDoc
deriving DecidableEq, Repr

/-- The enrichment dictionary passed to `gendata` (lines 588-595). -/
def otherInfo (ctx : PluginCtx) (now : PyTime) : Item :=
  [("dump_name", ctx.dumpName),
   ("orochi_plugin", strToLower ctx.pluginName),
   ("orochi_os", ctx.dumpOS.display),
   ("orochi_createdAt", isoformat (replaceMicrosecond now))]

/-- The index partition addressed by the bulk submission (line 586). -/
def targetIndex (ctx : PluginCtx) : String :=
  ctx.dumpIndex ++ "_" ++ strToLower ctx.pluginName

/-- Model of `run_plugin(dump_obj, plugin_obj, params, user_pk)` (lines
348-642), as a function of the engine and sink outcomes. -/
def run_plugin (ctx : PluginCtx) (eng : EngineOutcome) (sink : SinkOutcome)
    (startId : Nat) (now : PyTime) : RunOutcome :=
  match eng with
  | .unsatisfied unmet =>
    ⟨RESULT_STATUS_UNSATISFIED, joinNl unmet, []⟩
  | .failure fulltrace =>
    ⟨RESULT_STATUS_ERROR, joinNl fulltrace, []⟩
  | .rendered rows renderError =>
    if rows.isEmpty then
      ⟨RESULT_STATUS_EMPTY, renderError, []⟩
    else
      match sink with
      | .ok =>
        ⟨RESULT_STATUS_SUCCESS, renderError,
          gendata (targetIndex ctx) rows (otherInfo ctx now) startId⟩
      | .failBeforeBulk fulltrace =>
        ⟨RESULT_STATUS_ERROR, joinNl fulltrace, []⟩
      | .failAfterBulk fulltrace =>
        ⟨RESULT_STATUS_ERROR, joinNl fulltrace,
          gendata (targetIndex ctx) rows (otherInfo ctx now) startId⟩

/-! ## run_vt and run_regipy (lines 259-308)

The fan-out sub-tasks mutate only the `ExtractedDump` table: the row
matched by owning Result pk and exact path gets its `vt_report` /
`reg_array` field overwritten.  Result rows are part of the same world
state so that non-interference is a provable statement. -/

/-- One Result row (pk, outcome state, description). -/
structure ResRow where
  pk : Nat
  result : Nat
  description : String
deriving DecidableEq, Repr

/-- One ExtractedDump row. -/
structure EdRow where
  resultPk : Nat
  path : String
  vt_report : Option Item
  reg_array : Option Item
deriving DecidableEq, Repr

/-- The store state touched by fan-out sub-tasks. -/
structure World where
  results : List ResRow
  eds : List EdRow
deriving DecidableEq, Repr

/-- Error shape of a stored analyzer document: it carries an `error`
field. -/
def hasErrorField (d : Item) : Bool := d.any (fun kv => kv.fst = "error")

/-- Outcome of the VirusTotal lookup in `run_vt`: the service record is
missing (`ObjectDoesNotExist`, caught at line 285), the API raised
(`vt.error.APIError`, caught at line 283), any other exception inside
the inner try — an `OSError` from `hash_checksum(filepath)` or a
transport-level error from `vt.Client`/`get_object` (a connection
failure is not an `APIError`) — which NO handler of `run_vt` catches,
or a report with analysis stats, an optional scan date and a report
id. -/
inductive VtLookup where
  | noService
  | apiError (msg : String)
  | uncaught (fulltrace : List String)
  | ok (stats : List (String × Nat)) (scanDate : Option Nat) (reportId : String)
deriving DecidableEq, Repr

/-- Overwrite the `vt_report` field of the ExtractedDump row matched by
owning Result pk and exact path (lines 288-290). -/
def vtWrite (result_pk : Nat) (filepath : String) (doc : Item) (w : World) : World :=
  { w with
    eds := w.eds.map (fun ed =>
      if ed.resultPk = result_pk ∧ ed.path = filepath then
        { ed with vt_report := some doc }
      else ed) }

/-- Model of `run_vt(result_pk, filepath)` (lines 259-290).  The two
handled outcomes and a successful report reach the ExtractedDump write
(lines 274-290); an `uncaught` exception is raised inside the inner try
before the `ExtractedDump.objects.get` at line 288, so the function
raises with the store untouched — the exception then escapes the dask
task and is re-raised by the `dask_client.gather` at line 574 inside
the owning `run_plugin` invocation. -/
def run_vt (result_pk : Nat) (filepath : String) (lookup : VtLookup)
    (w : World) : Except (List String) World :=
  match lookup with
  | .noService =>
    .ok (vtWrite result_pk filepath [("error", "Service not configured")] w)
  | .apiError msg =>
    .ok (vtWrite result_pk filepath [("error", msg)] w)
  | .uncaught fulltrace => .error fulltrace
  | .ok stats scanDate reportId =>
    let getStat := fun k => ((stats.lookup k).getD 0)
    .ok (vtWrite result_pk filepath
      [("last_analysis_stats",
        toString (stats.map (fun kv => kv.fst ++ ":" ++ toString kv.snd))),
       ("scan_date", match scanDate with | some d => toString d | none => "None"),
       ("positives", toString (getStat "malicious" + getStat "suspicious")),
       ("total", toString ((stats.map Prod.snd).sum)),
       ("permalink", "https://www.virustotal.com/api/v3/files/" ++ reportId)] w)

/-- Outcome of the regipy hive parse in `run_regipy`: parsed subkey
entries (JSON encoding and the `\u0000` scrubbing abstracted into the
entry strings), or any exception (handler at line 302). -/
inductive RegipyOutcome where
  | parsed (entries : List String)
  | parseError (msg : String)
deriving DecidableEq, Repr

/-- The `reg_array` document built by `run_regipy` (lines 297-304):
on a parse failure the exception is logged and `root = {}` — an empty
document, carrying no error field. -/
def regArrayDoc : RegipyOutcome → Item
  | .parsed entries => [("values", String.intercalate ", " entries)]
  | .parseError _ => []

/-- Model of `run_regipy(result_pk, filepath)` (lines 293-308). -/
def run_regipy (result_pk : Nat) (filepath : String) (outcome : RegipyOutcome)
    (w : World) : World :=
  let root := regArrayDoc outcome
  { w with
    eds := w.eds.map (fun ed =>
      if ed.resultPk = result_pk ∧ ed.path = filepath then
        { ed with reg_array := some root }
      else ed) }

/-! ## unzip_then_run (lines 800-918)

The dump orchestrator.  External inputs: the sniffed mime type and the
files the archive tool leaves behind, the banner string later found in
the index by `get_banner`, the locally available symbol banners, and
the two symbol-mirror fetches.  `restart` is the caller-supplied plugin
subset; Python treats `None` and `[]` identically (both falsy), so it
is modelled as a plain list with `[]` meaning "no restart". -/

def BANNERS_PLUGIN : String := "banners.Banners"

/-- One row of `dump.result_set` as the orchestrator sees it. -/
structure ResultRow where
  pluginPk : Nat
  pluginName : String
  result : Nat
deriving DecidableEq, Repr

/-- The Dump record fields the orchestrator reads or writes. -/
structure DumpState where
  operating_system : OS
  banner : Option String
  status : Nat
  missing_symbols : Bool
  suggested_symbols_path : Option (List String)
  uploadPath : String
  results : List ResultRow
deriving DecidableEq, Repr

/-- The mime types treated as archives (lines 810-816). -/
def ARCHIVE_TYPES : List String :=
  ["application/zip", "application/x-7z-compressed", "application/x-rar",
   "application/gzip", "application/x-tar"]

/-- File-preparation inputs: `magic.from_file(filepath, mime=True)` and
the files found under the extraction folder after `7z e`. -/
structure PrepInput where
  filetype : String
  extractedFiles : List String
deriving DecidableEq, Repr

/-- The `.vmem` pick of lines 839-841: the loop does not break, so the
last file whose lower-cased name ends in `.vmem` wins.  (The
`Path(extract_path, x)` wrapping collapses to `x` because the globbed
paths are already rooted at the extraction folder.) -/
def choose_vmem (files : List String) : Option String :=
  files.foldl
    (fun acc x => if strEndsWith (strToLower x) ".vmem" then some x else acc) none

/-- Outcome of the preparation phase (lines 804-856).  `extraction`
records whether `7z` ran and whether it was given a `-p` password. -/
inductive PrepResult where
  | invalid (usedPassword : Bool)
  | ok (newpath : String) (extraction : Option Bool)
deriving DecidableEq, Repr

/-- Lines 809-849: sniff, extract, pick the artifact. -/
def prepPhase (filepath : String) (password : Option String)
    (inp : PrepInput) : PrepResult :=
  if ARCHIVE_TYPES.contains inp.filetype then
    let usedPw := pyTruthyStr password
    let newpath :=
      if inp.extractedFiles.length = 1 then inp.extractedFiles.head?
      else if inp.extractedFiles.length > 1 then choose_vmem inp.extractedFiles
      else none
    match newpath with
    | none => .invalid usedPw
    | some np => .ok np (some usedPw)
  else .ok filepath none

/-- Lines 859-874: for Linux/Mac dumps, reset the banner plugin's
Result to Running and run it synchronously, then adopt the banner found
in the index (quotes stripped) when one is present.  The nested
`run_plugin` call's own Result update happens against the store and
never produces Disabled; it is not tracked here. -/
def bannerPhase (dump : DumpState) (bannerFromIndex : Option String) : DumpState :=
  if dump.operating_system = .linux ∨ dump.operating_system = .mac then
    match dump.results.find? (fun r => r.pluginName = BANNERS_PLUGIN) with
    | some _ =>
      let dump :=
        { dump with
          results := dump.results.map (fun r =>
            if r.pluginName = BANNERS_PLUGIN then
              { r with result := RESULT_STATUS_RUNNING }
            else r) }
      if pyTruthyStr bannerFromIndex then
        { dump with banner := some (stripQuotes (bannerFromIndex.getD "")) }
      else dump
    | none => dump
  else dump

/-- The task list of both the dispatch branch (lines 880-886) and the
disable branch (lines 909-913): all Results, minus the banner plugin's
for Linux dumps, and in restart mode only the Results whose plugin pk
is in the subset. -/
def tasksList (dump : DumpState) (restart : List Nat) : List ResultRow :=
  let tl :=
    if dump.operating_system ≠ OS.linux then dump.results
    else dump.results.filter (fun r => r.pluginName ≠ BANNERS_PLUGIN)
  if ¬ restart.isEmpty then tl.filter (fun r => restart.contains r.pluginPk) else tl

/-- Lines 876-898: submit one `run_plugin` task per non-Disabled Result
of the task list, wait, then mark the dump Completed.  A submitted task
is identified by its plugin (pk, name). -/
def dispatchPhase (dump : DumpState) (restart : List Nat) :
    DumpState × List (Nat × String) :=
  let submitted :=
    ((tasksList dump restart).filter
      (fun r => r.result ≠ RESULT_STATUS_DISABLED)).map
      (fun r => (r.pluginPk, r.pluginName))
  ({ dump with status := DUMP_STATUS_COMPLETED }, submitted)

/-- Lines 899-917: the ineligible branch.  Best-effort symbol hints via
`get_path_from_banner` when a banner exists, missing-symbols flag set,
dump Completed, every Result of the task list Disabled, one
high-severity (color 4) notification. -/
def disablePhase (dump : DumpState) (ubuntuFetch debianFetch : Fetch) :
    DumpState × List (String × Nat) :=
  let dump :=
    if pyTruthyStr dump.banner then
      { dump with
        suggested_symbols_path :=
          some (get_path_from_banner (dump.banner.getD "") ubuntuFetch debianFetch) }
    else dump
  let dump :=
    { dump with missing_symbols := true, status := DUMP_STATUS_COMPLETED }
  let dump :=
    { dump with
      results := dump.results.map (fun r =>
        if dump.operating_system ≠ OS.linux ∨ r.pluginName ≠ BANNERS_PLUGIN then
          { r with result := RESULT_STATUS_DISABLED }
        else r) }
  (dump, [("Missing symbols all plugin are disabled", 4)])

/-- All external inputs of one `unzip_then_run` run. -/
structure UztrInput where
  prep : PrepInput
  bannerFromIndex : Option String
  availableBanners : Option (List String)
  ubuntuFetch : Fetch
  debianFetch : Fetch
deriving DecidableEq, Repr

/-- Observable outcome of one `unzip_then_run` run. -/
structure UztrOutput where
  dump : DumpState
  submitted : List (Nat × String)
  notifications : List (String × Nat)
  extraction : Option Bool
deriving DecidableEq, Repr

/-- Model of `unzip_then_run(dump_pk, user_pk, password, restart)`
(lines 800-918). -/
def unzip_then_run (dump : DumpState) (password : Option String)
    (restart : List Nat) (inp : UztrInput) : UztrOutput :=
  if restart.isEmpty then
    match prepPhase dump.uploadPath password inp.prep with
    | .invalid usedPw =>
      ⟨{ dump with status := DUMP_STATUS_ERROR }, [], [], some usedPw⟩
    | .ok newpath extraction =>
      let dump1 := { dump with uploadPath := newpath }
      let dump2 := bannerPhase dump1 inp.bannerFromIndex
      if check_runnable dump2.operating_system dump2.banner inp.availableBanners then
        let step := dispatchPhase dump2 []
        ⟨step.1, step.2, [], extraction⟩
      else
        let step := disablePhase dump2 inp.ubuntuFetch inp.debianFetch
        ⟨step.1, [], step.2, extraction⟩
  else
    let step := dispatchPhase dump restart
    ⟨step.1, step.2, [], none⟩

/-! ## Theorems -/

/-- C9: `BANNER_REGEX` applied to the string
`"Linux version 5.4.0-42-generic (buildd@host) (gcc version 9.3.0) #46-Ubuntu ..."`
matches and binds its kernel capture group to `"5.4.0-42-generic"`. -/
theorem C9_banner_grammar_kernel :
    (bannerMatch
      "Linux version 5.4.0-42-generic (buildd@host) (gcc version 9.3.0) #46-Ubuntu ...").map
      BannerGroups.kernel = some "5.4.0-42-generic" := by
  decide

/-- C1: every `run_plugin` invocation on an existing Result row ends in
exactly one of Unsatisfied, Error, Empty, Success — never Disabled.  An
unsatisfied-requirements report yields Unsatisfied with the
newline-joined unmet-requirement descriptions; any other exception
(during execution or in the post-render phase) yields Error with the
full joined trace; with no exception, zero rendered rows yield Empty
and more than zero rows yield Success. -/
theorem C1_run_plugin_state_machine (ctx : PluginCtx) (eng : EngineOutcome)
    (sink : SinkOutcome) (startId : Nat) (now : PyTime) :
    let out := run_plugin ctx eng sink startId now
    (out.result = RESULT_STATUS_UNSATISFIED ∨ out.result = RESULT_STATUS_ERROR ∨
      out.result = RESULT_STATUS_EMPTY ∨ out.result = RESULT_STATUS_SUCCESS)
    ∧ out.result ≠ RESULT_STATUS_DISABLED
    ∧ out.result ≠ RESULT_STATUS_RUNNING
    ∧ (∀ unmet, eng = .unsatisfied unmet →
        out.result = RESULT_STATUS_UNSATISFIED ∧ out.description = joinNl unmet)
    ∧ (∀ tr, eng = .failure tr →
        out.result = RESULT_STATUS_ERROR ∧ out.description = joinNl tr)
    ∧ (∀ rows err tr, eng = .rendered rows err → rows ≠ [] →
        (sink = .failBeforeBulk tr ∨ sink = .failAfterBulk tr) →
        out.result = RESULT_STATUS_ERROR ∧ out.description = joinNl tr)
    ∧ (∀ err, eng = .rendered [] err → out.result = RESULT_STATUS_EMPTY)
    ∧ (∀ rows err, eng = .rendered rows err → rows ≠ [] → sink = .ok →
        out.result = RESULT_STATUS_SUCCESS) := by
  intro out
  cases eng with
  | unsatisfied unmet =>
    simp [out, run_plugin, RESULT_STATUS_UNSATISFIED, RESULT_STATUS_ERROR,
      RESULT_STATUS_EMPTY, RESULT_STATUS_SUCCESS, RESULT_STATUS_DISABLED,
      RESULT_STATUS_RUNNING]
  | failure tr =>
    simp [out, run_plugin, RESULT_STATUS_UNSATISFIED, RESULT_STATUS_ERROR,
      RESULT_STATUS_EMPTY, RESULT_STATUS_SUCCESS, RESULT_STATUS_DISABLED,
      RESULT_STATUS_RUNNING]
  | rendered rows err =>
    cases rows with
    | nil =>
      cases sink <;>
        (simp [out, run_plugin, RESULT_STATUS_UNSATISFIED, RESULT_STATUS_ERROR,
          RESULT_STATUS_EMPTY, RESULT_STATUS_SUCCESS, RESULT_STATUS_DISABLED,
          RESULT_STATUS_RUNNING] <;> intros <;> simp_all)
    | cons a as =>
      cases sink <;>
        (simp [out, run_plugin, RESULT_STATUS_UNSATISFIED, RESULT_STATUS_ERROR,
          RESULT_STATUS_EMPTY, RESULT_STATUS_SUCCESS, RESULT_STATUS_DISABLED,
          RESULT_STATUS_RUNNING] <;> intros <;> simp_all)

/-- Witness for C1 at a concrete unsatisfied invocation. -/
theorem C1_run_plugin_state_machine_witness :
    (run_plugin ⟨"dump", "idx", .linux, "linux.pslist.PsList"⟩
      (.unsatisfied ["A symbol table requirement was not fulfilled"])
      .ok 0 ⟨100, 5⟩).result = RESULT_STATUS_UNSATISFIED := by
  exact ((C1_run_plugin_state_machine ⟨"dump", "idx", .linux, "linux.pslist.PsList"⟩
    (.unsatisfied ["A symbol table requirement was not fulfilled"])
    .ok 0 ⟨100, 5⟩).2.2.2.1 _ rfl).1

/-- C3 (counterexample): the claim fails twice on the code.  First, a
regipy parse failure is caught, but the document recorded on
`reg_array` is the empty document `{}` (line 304), which carries no
error field — it is not error-shaped.  Second, `run_vt` catches only
`vt.error.APIError` and `ObjectDoesNotExist`: any other exception (an
`OSError` while hashing the file, a transport error from the VT
client) escapes `run_vt` without writing anything, and — re-raised by
the `dask_client.gather` at line 574 — reaches the outer handler of
the owning `run_plugin` invocation (line 631), which sets the owning
Result to Error. -/
theorem C3_counterexample :
    (run_regipy 1 "/media/1/plug/f" (.parseError "corrupted hive")
      ⟨[⟨9, RESULT_STATUS_SUCCESS, ""⟩], [⟨1, "/media/1/plug/f", none, none⟩]⟩).eds
      = [⟨1, "/media/1/plug/f", none, some []⟩]
    ∧ hasErrorField [] = false
    ∧ run_vt 1 "/media/1/plug/f"
        (.uncaught ["OSError: No such file or directory: /media/1/plug/f"])
        ⟨[⟨9, RESULT_STATUS_SUCCESS, ""⟩], [⟨1, "/media/1/plug/f", none, none⟩]⟩
        = .error ["OSError: No such file or directory: /media/1/plug/f"]
    ∧ (run_plugin ⟨"dump", "idx", .windows, "windows.registry.Hives"⟩
        (.rendered [[("Offset", "0x1000")]] "")
        (.failBeforeBulk ["OSError: No such file or directory: /media/1/plug/f"])
        0 ⟨0, 0⟩).result = RESULT_STATUS_ERROR := by
  exact ⟨rfl, rfl, rfl, rfl⟩

/-- C3 (amended): fan-out failures of the classes `run_vt` handles
(missing service configuration, VT API error) are caught and recorded
as an error-shaped `vt_report` document on the matching ExtractedDump
row (looked up by owning Result pk and exact path) without touching any
Result row; `run_regipy` catches every parse failure but records the
empty — not error-shaped — document on `reg_array`; rows that do not
match are left unchanged.  Any other exception in `run_vt` is NOT
caught: it raises with the store untouched, and such a propagated
fan-out failure surfaces in the owning `run_plugin` invocation's outer
handler, setting the owning Result to Error. -/
theorem C3_fanout_isolation (pk : Nat) (path : String) (vl : VtLookup)
    (ro : RegipyOutcome) (w : World) :
    (∀ msg, (vl = .noService ∨ vl = .apiError msg) →
      ∃ w2, run_vt pk path vl w = .ok w2
        ∧ w2.results = w.results
        ∧ (∀ ed ∈ w2.eds, ed.resultPk = pk → ed.path = path →
            ∃ d, ed.vt_report = some d ∧ hasErrorField d = true)
        ∧ (∀ ed ∈ w.eds, ¬(ed.resultPk = pk ∧ ed.path = path) → ed ∈ w2.eds))
    ∧ (∀ tr, vl = .uncaught tr → run_vt pk path vl w = .error tr)
    ∧ (∀ ctx rows err startId now tr, rows ≠ [] →
        (run_plugin ctx (.rendered rows err) (.failBeforeBulk tr) startId now).result
          = RESULT_STATUS_ERROR)
    ∧ (run_regipy pk path ro w).results = w.results
    ∧ (∀ msg, ro = .parseError msg →
        ∀ ed ∈ (run_regipy pk path ro w).eds, ed.resultPk = pk → ed.path = path →
          ed.reg_array = some [])
    ∧ (∀ ed ∈ w.eds, ¬(ed.resultPk = pk ∧ ed.path = path) →
        ed ∈ (run_regipy pk path ro w).eds) := by
  refine ⟨?_, ?_, ?_, rfl, ?_, ?_⟩
  · intro msg hvl
    have hmem : ∀ doc, ∀ ed ∈ (vtWrite pk path doc w).eds,
        ed.resultPk = pk → ed.path = path →
        ∃ d, ed.vt_report = some d ∧ d = doc := by
      intro doc ed hed hpk hpath
      simp only [vtWrite, List.mem_map] at hed
      obtain ⟨a, _, ha⟩ := hed
      by_cases hm : a.resultPk = pk ∧ a.path = path
      · rw [if_pos hm] at ha
        exact ⟨doc, by rw [← ha], rfl⟩
      · rw [if_neg hm] at ha
        subst ha
        exact absurd ⟨hpk, hpath⟩ hm
    have huntouched : ∀ doc, ∀ ed ∈ w.eds, ¬(ed.resultPk = pk ∧ ed.path = path) →
        ed ∈ (vtWrite pk path doc w).eds := by
      intro doc ed hed hne
      simp only [vtWrite, List.mem_map]
      exact ⟨ed, hed, by rw [if_neg hne]⟩
    rcases hvl with h | h <;> subst h
    · refine ⟨_, rfl, rfl, ?_, huntouched _⟩
      intro ed hed hpk hpath
      obtain ⟨d, hd, hdoc⟩ := hmem _ ed hed hpk hpath
      subst hdoc
      exact ⟨_, hd, rfl⟩
    · refine ⟨_, rfl, rfl, ?_, huntouched _⟩
      intro ed hed hpk hpath
      obtain ⟨d, hd, hdoc⟩ := hmem _ ed hed hpk hpath
      subst hdoc
      exact ⟨_, hd, rfl⟩
  · intro tr htr
    subst htr
    rfl
  · intro ctx rows err startId now tr hrows
    cases rows with
    | nil => exact absurd rfl hrows
    | cons a as => rfl
  · intro msg hro ed hed hpk hpath
    subst hro
    simp only [run_regipy, List.mem_map] at hed
    obtain ⟨a, _, ha⟩ := hed
    by_cases hm : a.resultPk = pk ∧ a.path = path
    · rw [if_pos hm] at ha
      rw [← ha]
      rfl
    · rw [if_neg hm] at ha
      subst ha
      exact absurd ⟨hpk, hpath⟩ hm
  · intro ed hed hne
    simp only [run_regipy, List.mem_map]
    exact ⟨ed, hed, by rw [if_neg hne]⟩

/-- Witness for C3's amended theorem at a concrete caught API error. -/
theorem C3_fanout_isolation_witness :
    ∃ w2, run_vt 1 "/media/1/plug/f" (.apiError "quota exceeded")
        ⟨[⟨9, RESULT_STATUS_SUCCESS, ""⟩], [⟨1, "/media/1/plug/f", none, none⟩]⟩
        = .ok w2
      ∧ w2.results = [⟨9, RESULT_STATUS_SUCCESS, ""⟩] := by
  obtain ⟨w2, h1, h2, -, -⟩ := (C3_fanout_isolation 1 "/media/1/plug/f"
    (.apiError "quota exceeded") (.parsed [])
    ⟨[⟨9, RESULT_STATUS_SUCCESS, ""⟩], [⟨1, "/media/1/plug/f", none, none⟩]⟩).1
    "quota exceeded" (Or.inr rfl)
  exact ⟨w2, h1, h2⟩

/-- Keys of `info` keep their `info` value through a Python-style
`item.update(info)`. -/
theorem lookup_updateItem (item info : Item) (k : String)
    (hk : k ∈ info.map Prod.fst) :
    (updateItem item info).lookup k = info.lookup k := by
  induction item with
  | nil => simp [updateItem]
  | cons kv rest ih =>
    obtain ⟨a, b⟩ := kv
    unfold updateItem at ih ⊢
    rw [List.filter_cons]
    by_cases hp : (info.map Prod.fst).contains a = true
    · rw [if_neg (by rw [hp]; simp)]
      exact ih
    · have hc : (info.map Prod.fst).contains a = false := Bool.eq_false_iff.mpr hp
      have hkv : a ∉ info.map Prod.fst := by
        intro hmem
        exact hp (by simpa using hmem)
      have hne : (k == a) = false := by
        rcases h : k == a with _ | _
        · rfl
        · exact absurd (beq_iff_eq.mp h ▸ hk) hkv
      rw [if_pos (by rw [hc]; rfl), List.cons_append]
      simpa [List.lookup, hne] using ih

/-- Shape of every document generated by `gendata`: the given index,
an id from the supply window, and a source that is one row updated with
the enrichment dictionary. -/
theorem gendata_mem (index : String) (rows : List Item) (info : Item) (n : Nat) :
    ∀ d ∈ gendata index rows info n,
      d.index = index ∧ n ≤ d.id ∧ d.id < n + rows.length ∧
      ∃ item ∈ rows, d.source = updateItem item info := by
  induction rows generalizing n with
  | nil => simp [gendata]
  | cons a as ih =>
    intro d hd
    rcases List.mem_cons.mp hd with rfl | hd2
    · exact ⟨rfl, Nat.le_refl n, by simp, a, by simp, rfl⟩
    · obtain ⟨h1, h2, h3, item, hit, h4⟩ := ih (n + 1) d hd2
      refine ⟨h1, by omega, ?_, item, List.mem_cons_of_mem _ hit, h4⟩
      simp only [List.length_cons]
      omega

/-- The generator `gendata` emits exactly one document per row. -/
theorem gendata_length (index : String) (rows : List Item) (info : Item) (n : Nat) :
    (gendata index rows info n).length = rows.length := by
  induction rows generalizing n with
  | nil => rfl
  | cons a as ih => simpa [gendata] using ih (n + 1)

/-- The document ids of one `gendata` batch are pairwise distinct. -/
theorem gendata_ids_nodup (index : String) (rows : List Item) (info : Item) (n : Nat) :
    ((gendata index rows info n).map EsDoc.id).Nodup := by
  induction rows generalizing n with
  | nil => simp [gendata]
  | cons a as ih =>
    simp only [gendata, List.map_cons, List.nodup_cons]
    refine ⟨?_, ih (n + 1)⟩
    intro hmem
    obtain ⟨d, hd, hid⟩ := List.mem_map.mp hmem
    obtain ⟨-, hge, -, -⟩ := gendata_mem index as info (n + 1) d hd
    omega

/-- C6: a plugin execution yielding N > 0 rendered rows submits exactly
N documents as one bulk batch to the partition
`<dump-index>_<lower-cased plugin name>`, each enriched with the dump's
display name, the lower-cased plugin identity, the operating-system
label, an ingestion timestamp with second precision, and a fresh unique
id; an execution yielding zero rows produces Result.Empty and writes
nothing. -/
theorem C6_result_sink (ctx : PluginCtx) (rows : List Item) (err : String)
    (startId : Nat) (now : PyTime) (hrows : rows ≠ []) :
    let out := run_plugin ctx (.rendered rows err) .ok startId now
    out.result = RESULT_STATUS_SUCCESS
    ∧ out.docs.length = rows.length
    ∧ (∀ d ∈ out.docs,
        d.index = ctx.dumpIndex ++ "_" ++ strToLower ctx.pluginName
        ∧ d.source.lookup "dump_name" = some ctx.dumpName
        ∧ d.source.lookup "orochi_plugin" = some (strToLower ctx.pluginName)
        ∧ d.source.lookup "orochi_os" = some ctx.dumpOS.display
        ∧ d.source.lookup "orochi_createdAt"
            = some (isoformat (replaceMicrosecond now)))
    ∧ (out.docs.map EsDoc.id).Nodup
    ∧ isoformat (replaceMicrosecond now) = toString now.sec
    ∧ (run_plugin ctx (.rendered [] err) .ok startId now).result
        = RESULT_STATUS_EMPTY
    ∧ (run_plugin ctx (.rendered [] err) .ok startId now).docs = [] := by
  intro out
  have hout : out = ⟨RESULT_STATUS_SUCCESS, err,
      gendata (targetIndex ctx) rows (otherInfo ctx now) startId⟩ := by
    cases rows with
    | nil => exact absurd rfl hrows
    | cons a as => rfl
  refine ⟨by rw [hout], ?_, ?_, ?_, ?_, rfl, rfl⟩
  · rw [hout]
    exact gendata_length _ _ _ _
  · intro d hd
    rw [hout] at hd
    obtain ⟨h1, -, -, item, -, h4⟩ :=
      gendata_mem (targetIndex ctx) rows (otherInfo ctx now) startId d hd
    rw [h4]
    refine ⟨h1, ?_, ?_, ?_, ?_⟩ <;>
      rw [lookup_updateItem item (otherInfo ctx now) _ (by simp [otherInfo])] <;> rfl
  · rw [hout]
    exact gendata_ids_nodup _ _ _ _
  · simp [isoformat, replaceMicrosecond]

/-- Witness for C6 at a one-row batch. -/
theorem C6_result_sink_witness :
    (run_plugin ⟨"dump", "idx", .windows, "Windows.PsList"⟩
      (.rendered [[("PID", "4")]] "") .ok 10 ⟨1700000000, 250⟩).docs.length = 1 := by
  exact (C6_result_sink ⟨"dump", "idx", .windows, "Windows.PsList"⟩
    [[("PID", "4")]] "" 10 ⟨1700000000, 250⟩ (by decide)).2.1

/-- With no kernel extracted from the dump banner the cache loop can
never hit (a matched symbol banner always has a kernel string). -/
theorem symBannerHit_none (ab : String) : symBannerHit none ab = false := by
  unfold symBannerHit
  by_cases h : ab = ""
  · simp [h]
  · simp only [h, if_neg, ite_false]
    cases bannerMatch (rstripNlNul ab) with
    | none => rfl
    | some g => simp

/-- Characterisation of one cache-loop hit against a concrete kernel. -/
theorem symBannerHit_some (k : String) (ab : String) :
    symBannerHit (some k) ab = true ↔
      ab ≠ "" ∧ (bannerMatch (rstripNlNul ab)).map BannerGroups.kernel = some k := by
  unfold symBannerHit
  by_cases h : ab = ""
  · simp [h]
  · simp only [h, ite_false]
    cases bannerMatch (rstripNlNul ab) with
    | none => simp [h]
    | some g => simp [h, Option.map_some]

/-- The cache loop returns true exactly when some listed banner hits. -/
theorem scanBanners_iff (dk : Option String) (l : List String) :
    scanBanners dk l = true ↔ ∃ ab ∈ l, symBannerHit dk ab = true := by
  induction l with
  | nil => simp [scanBanners]
  | cons ab rest ih =>
    by_cases h : symBannerHit dk ab = true
    · simp [scanBanners, h]
    · simp only [scanBanners, h, Bool.false_eq_true, if_neg, ite_false, ih,
        List.mem_cons]
      constructor
      · rintro ⟨x, hx, hhit⟩
        exact ⟨x, Or.inr hx, hhit⟩
      · rintro ⟨x, hx | hx, hhit⟩
        · exact absurd (hx ▸ hhit) h
        · exact ⟨x, hx, hhit⟩

/-- C4: `check_runnable` is true for every Windows or Mac dump; for a
Linux dump it is false when the banner is missing or unparsable, and
with a parsable banner it is true iff the kernel extracted from the
dump banner exactly equals the kernel extracted from some locally
available symbol banner. -/
theorem C4_check_runnable (banner : Option String) (avail : Option (List String)) :
    check_runnable .windows banner avail = true
    ∧ check_runnable .mac banner avail = true
    ∧ (pyTruthyStr banner = false → check_runnable .linux banner avail = false)
    ∧ (∀ b, banner = some b → bannerMatch b = none →
        check_runnable .linux banner avail = false)
    ∧ (∀ b g, banner = some b → b ≠ "" → bannerMatch b = some g →
        (check_runnable .linux banner avail = true ↔
          ∃ ab ∈ avail.getD [], ab ≠ "" ∧
            (bannerMatch (rstripNlNul ab)).map BannerGroups.kernel
              = some g.kernel)) := by
  refine ⟨rfl, rfl, ?_, ?_, ?_⟩
  · intro h
    simp [check_runnable, h]
  · intro b hb hm
    subst hb
    by_cases hbe : b = ""
    · simp [check_runnable, pyTruthyStr, hbe]
    · have ht : pyTruthyStr (some b) = true := by simp [pyTruthyStr, hbe]
      simp only [check_runnable, ht, Bool.true_eq_false, not_true_eq_false,
        ite_false, Option.getD_some, hm]
      cases avail with
      | none => rfl
      | some l =>
        cases hs : scanBanners none l with
        | false => exact hs
        | true =>
          obtain ⟨ab, -, hhit⟩ := (scanBanners_iff none l).mp hs
          exact absurd hhit (by simp [symBannerHit_none])
  · intro b g hb hbe hm
    subst hb
    have ht : pyTruthyStr (some b) = true := by simp [pyTruthyStr, hbe]
    simp only [check_runnable, ht, not_true_eq_false, ite_false,
      Option.getD_some, hm]
    cases avail with
    | none => simp
    | some l =>
      simp only [Option.getD_some]
      rw [scanBanners_iff]
      constructor
      · rintro ⟨ab, hab, hhit⟩
        exact ⟨ab, hab, (symBannerHit_some g.kernel ab).mp hhit⟩
      · rintro ⟨ab, hab, hprops⟩
        exact ⟨ab, hab, (symBannerHit_some g.kernel ab).mpr hprops⟩

/-- Witness for C4 at a concrete eligible Linux dump. -/
theorem C4_check_runnable_witness :
    check_runnable .linux
      (some "Linux version 5.4.0-42-generic (buildd@host) (gcc version 9.3.0) #46-Ubuntu ...")
      (some ["Linux version 5.4.0-42-generic (buildd@other) (gcc version 9.3.0) #46-Ubuntu SMP x\n"])
      = true := by
  have h := (C4_check_runnable
    (some "Linux version 5.4.0-42-generic (buildd@host) (gcc version 9.3.0) #46-Ubuntu ...")
    (some ["Linux version 5.4.0-42-generic (buildd@other) (gcc version 9.3.0) #46-Ubuntu SMP x\n"])).2.2.2.2
    "Linux version 5.4.0-42-generic (buildd@host) (gcc version 9.3.0) #46-Ubuntu ..."
    ⟨"5.4.0-42-generic", "(buildd@host)", "gcc version 9.3.0)", "46", "-Ubuntu ..."⟩
    rfl (by decide) (by decide)
  rw [h]
  refine ⟨"Linux version 5.4.0-42-generic (buildd@other) (gcc version 9.3.0) #46-Ubuntu SMP x\n",
    by decide, by decide, by decide⟩

/-- C8: `get_path_from_banner` always returns a (non-empty) singleton
hint list and never raises: an unparsable banner, an unrecognized
distribution, an unrecognized architecture, and a network/HTML-parse
failure each degrade to a placeholder hint string. -/
theorem C8_symbols_path_degrades (banner : String) (uf df : Fetch) :
    (∃ s, get_path_from_banner banner uf df = [s])
    ∧ (bannerMatch banner = none →
        get_path_from_banner banner uf df = [BANNER_PARSE_FAIL_HINT])
    ∧ (∀ g, bannerMatch banner = some g →
        (strContains (strToLower g.gcc) "ubuntu" || strContains (strToLower g.info) "ubuntu") = false →
        (strContains (strToLower g.gcc) "debian" || strContains (strToLower g.info) "debian") = false →
        get_path_from_banner banner uf df = [OS_WIP_HINT])
    ∧ (∀ g, bannerMatch banner = some g →
        (strContains (strToLower g.gcc) "ubuntu" || strContains (strToLower g.info) "ubuntu") = true →
        detectArch banner = none →
        get_path_from_banner banner uf df = [OS_WIP_HINT])
    ∧ (∀ g arch, bannerMatch banner = some g →
        (strContains (strToLower g.gcc) "ubuntu" || strContains (strToLower g.info) "ubuntu") = true →
        detectArch banner = some arch → uf = .fail →
        get_path_from_banner banner uf df = [DOWNLOAD_FAIL_HINT])
    ∧ (∀ g arch, bannerMatch banner = some g →
        (strContains (strToLower g.gcc) "ubuntu" || strContains (strToLower g.info) "ubuntu") = false →
        (strContains (strToLower g.gcc) "debian" || strContains (strToLower g.info) "debian") = true →
        detectArch banner = some arch → df = .fail →
        get_path_from_banner banner uf df = [DOWNLOAD_FAIL_HINT]) := by
  refine ⟨?_, ?_, ?_, ?_, ?_, ?_⟩
  · unfold get_path_from_banner
    cases hb : bannerMatch banner with
    | none => exact ⟨_, rfl⟩
    | some m =>
      dsimp only
      by_cases h1 : (strContains (strToLower m.gcc) "ubuntu" ||
          strContains (strToLower m.info) "ubuntu") = true
      · rw [if_pos h1]
        cases ha : detectArch banner with
        | none => exact ⟨_, rfl⟩
        | some arch =>
          dsimp only
          cases uf with
          | fail => exact ⟨_, rfl⟩
          | links hs =>
            dsimp only
            cases ubuntuScan "http://ddebs.ubuntu.com/ubuntu/pool/main/l/linux/"
                ("linux-image-" ++ m.kernel) ("linux-image-unsigned-" ++ m.kernel)
                arch hs with
            | none => exact ⟨_, rfl⟩
            | some u => exact ⟨_, rfl⟩
      · rw [if_neg h1]
        by_cases h2 : (strContains (strToLower m.gcc) "debian" ||
            strContains (strToLower m.info) "debian") = true
        · rw [if_pos h2]
          cases ha : detectArch banner with
          | none => exact ⟨_, rfl⟩
          | some arch =>
            dsimp only
            cases df with
            | fail => exact ⟨_, rfl⟩
            | links hs =>
              dsimp only
              cases debianScan "https://deb.sipwise.com/debian/pool/main/l/linux/"
                  ("linux-image-" ++ m.kernel ++ "-dbg") m.info arch hs with
              | found u => exact ⟨_, rfl⟩
              | dlFail => exact ⟨_, rfl⟩
              | noMatch => exact ⟨_, rfl⟩
        · rw [if_neg h2]
          exact ⟨_, rfl⟩
  · intro hb
    unfold get_path_from_banner
    rw [hb]
  · intro g hb h1 h2
    unfold get_path_from_banner
    rw [hb]
    dsimp only
    rw [if_neg (by rw [h1]; simp), if_neg (by rw [h2]; simp)]
  · intro g hb h1 ha
    unfold get_path_from_banner
    rw [hb]
    dsimp only
    rw [if_pos h1, ha]
  · intro g arch hb h1 ha hf
    unfold get_path_from_banner
    rw [hb]
    dsimp only
    rw [if_pos h1, ha, hf]
  · intro g arch hb h1 h2 ha hf
    unfold get_path_from_banner
    rw [hb]
    dsimp only
    rw [if_neg (by rw [h1]; simp), if_pos h2, ha, hf]

/-- Witness for C8 at a concrete Ubuntu banner whose mirror fetch
fails. -/
theorem C8_symbols_path_degrades_witness :
    get_path_from_banner
      "Linux version 5.4.0-42-generic amd64 (buildd@host) (gcc version 9.3.0 (Ubuntu 9.3.0)) #46 SMP x"
      .fail .fail = [DOWNLOAD_FAIL_HINT] := by
  exact (C8_symbols_path_degrades
    "Linux version 5.4.0-42-generic amd64 (buildd@host) (gcc version 9.3.0 (Ubuntu 9.3.0)) #46 SMP x"
    .fail .fail).2.2.2.2.1
    ⟨"5.4.0-42-generic", "amd64 (buildd@host)", "gcc version 9.3.0 (Ubuntu 9.3.0))", "46", " SMP x"⟩
    "amd64" (by decide) (by decide) (by decide) rfl

/-- The banner phase never changes the dump's operating system. -/
theorem bannerPhase_operating_system (d : DumpState) (b : Option String) :
    (bannerPhase d b).operating_system = d.operating_system := by
  unfold bannerPhase
  split
  · split
    · split <;> rfl
    · rfl
  · rfl

/-- The banner phase never changes the dump's artifact path. -/
theorem bannerPhase_uploadPath (d : DumpState) (b : Option String) :
    (bannerPhase d b).uploadPath = d.uploadPath := by
  unfold bannerPhase
  split
  · split
    · split <;> rfl
    · rfl
  · rfl

/-- The disable phase never changes the dump's artifact path. -/
theorem disablePhase_uploadPath (d : DumpState) (uf df : Fetch) :
    (disablePhase d uf df).1.uploadPath = d.uploadPath := by
  unfold disablePhase
  split <;> rfl

/-- The single predicate equivalent to the dispatch-phase filter chain:
not Disabled, not the banner plugin's Result when the dump is Linux,
and in the restart subset when one was given. -/
def dispatchPred (os : OS) (restart : List Nat) (r : ResultRow) : Bool :=
  (decide (r.result ≠ RESULT_STATUS_DISABLED)) &&
  (decide (os ≠ OS.linux) || decide (r.pluginName ≠ BANNERS_PLUGIN)) &&
  (restart.isEmpty || restart.contains r.pluginPk)

/-- The dispatch phase marks the dump Completed and submits exactly the
Results selected by `dispatchPred`, identified by plugin pk and name. -/
theorem dispatchPhase_eq (dump : DumpState) (restart : List Nat) :
    dispatchPhase dump restart =
      ({ dump with status := DUMP_STATUS_COMPLETED },
       (dump.results.filter (dispatchPred dump.operating_system restart)).map
         (fun r => (r.pluginPk, r.pluginName))) := by
  unfold dispatchPhase tasksList
  dsimp only
  by_cases hre : restart = []
  · subst hre
    rw [if_neg (by simp)]
    by_cases hos : dump.operating_system = OS.linux
    · rw [if_neg (by simp [hos]), List.filter_filter]
      refine congrArg _ (congrArg _ (List.filter_congr ?_))
      intro r _
      simp [dispatchPred, hos]
    · rw [if_pos hos]
      refine congrArg _ (congrArg _ (List.filter_congr ?_))
      intro r _
      simp [dispatchPred, hos]
  · have hre2 : restart.isEmpty = false := by
      cases restart with
      | nil => exact absurd rfl hre
      | cons a t => rfl
    rw [if_pos (by simp [hre2])]
    by_cases hos : dump.operating_system = OS.linux
    · rw [if_neg (by simp [hos]), List.filter_filter, List.filter_filter]
      refine congrArg _ (congrArg _ (List.filter_congr ?_))
      intro r _
      cases h1 : decide (r.result ≠ RESULT_STATUS_DISABLED) <;>
      cases h2 : decide (r.pluginName ≠ BANNERS_PLUGIN) <;>
      cases h3 : restart.contains r.pluginPk <;>
        simp_all [dispatchPred, hos, hre2]
    · rw [if_pos hos, List.filter_filter]
      refine congrArg _ (congrArg _ (List.filter_congr ?_))
      intro r _
      cases h1 : decide (r.result ≠ RESULT_STATUS_DISABLED) <;>
      cases h3 : restart.contains r.pluginPk <;>
        simp_all [dispatchPred, hos, hre2]

/-- C5 (counterexample): for a Windows dump the dispatch phase does not
exclude the banner plugin (the exclusion at lines 880-884 applies only
to Linux dumps), so a non-Disabled `banners.Banners` Result is
submitted as a task, contradicting the claim that no task is submitted
for the banner plugin's Result. -/
theorem C5_counterexample :
    (unzip_then_run
      ⟨.windows, none, DUMP_STATUS_CREATED, false, none, "/u/d", [⟨3, "banners.Banners", RESULT_STATUS_RUNNING⟩]⟩
      none []
      ⟨⟨"application/octet-stream", []⟩, none, none, .fail, .fail⟩).submitted
      = [(3, "banners.Banners")] := by
  decide

/-- C5 (amended): in every run that reaches the dispatch phase, exactly
one Plugin Executor task is submitted per Result that is not Disabled,
that (for Linux dumps only) does not belong to the banner plugin, and
(in restart mode) whose plugin id is in the restart subset; afterwards
the dump status is Completed. -/
theorem C5_dispatch_amended (dump : DumpState) (password : Option String)
    (restart : List Nat) (inp : UztrInput) :
    (∀ np extraction, restart = [] →
      prepPhase dump.uploadPath password inp.prep = .ok np extraction →
      check_runnable
        (bannerPhase { dump with uploadPath := np } inp.bannerFromIndex).operating_system
        (bannerPhase { dump with uploadPath := np } inp.bannerFromIndex).banner
        inp.availableBanners = true →
      unzip_then_run dump password restart inp =
        ⟨{ bannerPhase { dump with uploadPath := np } inp.bannerFromIndex with
            status := DUMP_STATUS_COMPLETED },
         ((bannerPhase { dump with uploadPath := np } inp.bannerFromIndex).results.filter
            (dispatchPred dump.operating_system [])).map
           (fun r => (r.pluginPk, r.pluginName)),
         [], extraction⟩)
    ∧ (restart ≠ [] →
        unzip_then_run dump password restart inp =
          ⟨{ dump with status := DUMP_STATUS_COMPLETED },
           (dump.results.filter (dispatchPred dump.operating_system restart)).map
             (fun r => (r.pluginPk, r.pluginName)),
           [], none⟩) := by
  constructor
  · intro np extraction hre hprep hcheck
    subst hre
    unfold unzip_then_run
    rw [if_pos (show (List.isEmpty ([] : List Nat)) = true from rfl), hprep]
    dsimp only
    rw [if_pos hcheck, dispatchPhase_eq, bannerPhase_operating_system]
  · intro hre
    have hre2 : restart.isEmpty = false := by
      cases restart with
      | nil => exact absurd rfl hre
      | cons a t => rfl
    unfold unzip_then_run
    rw [if_neg (by simp [hre2]), dispatchPhase_eq]

/-- Witness for C5's amended theorem at a concrete restart run. -/
theorem C5_dispatch_amended_witness :
    unzip_then_run
      ⟨.linux, none, DUMP_STATUS_CREATED, false, none, "/u/d",
        [⟨3, "banners.Banners", RESULT_STATUS_RUNNING⟩,
         ⟨4, "linux.pslist.PsList", RESULT_STATUS_RUNNING⟩,
         ⟨5, "linux.pstree.PsTree", RESULT_STATUS_DISABLED⟩]⟩
      none [4, 5]
      ⟨⟨"application/octet-stream", []⟩, none, none, .fail, .fail⟩ =
      ⟨⟨.linux, none, DUMP_STATUS_COMPLETED, false, none, "/u/d",
        [⟨3, "banners.Banners", RESULT_STATUS_RUNNING⟩,
         ⟨4, "linux.pslist.PsList", RESULT_STATUS_RUNNING⟩,
         ⟨5, "linux.pstree.PsTree", RESULT_STATUS_DISABLED⟩]⟩,
       [(4, "linux.pslist.PsList")], [], none⟩ := by
  rw [(C5_dispatch_amended
    ⟨.linux, none, DUMP_STATUS_CREATED, false, none, "/u/d",
      [⟨3, "banners.Banners", RESULT_STATUS_RUNNING⟩,
       ⟨4, "linux.pslist.PsList", RESULT_STATUS_RUNNING⟩,
       ⟨5, "linux.pstree.PsTree", RESULT_STATUS_DISABLED⟩]⟩
    none [4, 5]
    ⟨⟨"application/octet-stream", []⟩, none, none, .fail, .fail⟩).2 (by decide)]
  decide

/-- C10 (counterexample): in restart mode on a Linux dump the dispatch
is NOT filtered only by restart membership and non-Disabled status: the
banner plugin's Result is additionally excluded (line 883), so naming
the banner plugin in the restart subset submits nothing. -/
theorem C10_counterexample :
    (unzip_then_run
      ⟨.linux, none, DUMP_STATUS_CREATED, true, none, "/u/d",
        [⟨7, "banners.Banners", RESULT_STATUS_RUNNING⟩]⟩
      none [7]
      ⟨⟨"application/zip", []⟩, none, none, .fail, .fail⟩).submitted = []
    ∧ ([⟨7, "banners.Banners", RESULT_STATUS_RUNNING⟩] :
        List ResultRow).filter
        (fun r => [7].contains r.pluginPk &&
          decide (r.result ≠ RESULT_STATUS_DISABLED))
        = [⟨7, "banners.Banners", RESULT_STATUS_RUNNING⟩] := by
  constructor
  · decide
  · decide

/-- C10 (amended): a run with a non-empty restart subset skips artifact
preparation, the banner run and the eligibility check entirely: the
dump is returned unchanged except for status Completed (even when
missing-symbols is set), no extraction and no notification happen, and
the submitted tasks are exactly the Results that are not Disabled,
whose plugin is in the restart subset, and that (for Linux dumps) do
not belong to the banner plugin. -/
theorem C10_restart_amended (dump : DumpState) (password : Option String)
    (restart : List Nat) (inp : UztrInput) (hre : restart ≠ []) :
    unzip_then_run dump password restart inp =
      ⟨{ dump with status := DUMP_STATUS_COMPLETED },
       (dump.results.filter (dispatchPred dump.operating_system restart)).map
         (fun r => (r.pluginPk, r.pluginName)),
       [], none⟩ := by
  have hre2 : restart.isEmpty = false := by
    cases restart with
    | nil => exact absurd rfl hre
    | cons a t => rfl
  unfold unzip_then_run
  rw [if_neg (by simp [hre2]), dispatchPhase_eq]

/-- Witness for C10's amended theorem on a missing-symbols dump. -/
theorem C10_restart_amended_witness :
    unzip_then_run
      ⟨.linux, some "b", DUMP_STATUS_CREATED, true, none, "/u/d",
        [⟨4, "linux.pslist.PsList", RESULT_STATUS_RUNNING⟩]⟩
      none [4]
      ⟨⟨"application/zip", ["/u/a", "/u/b"]⟩, none, none, .fail, .fail⟩ =
      ⟨⟨.linux, some "b", DUMP_STATUS_COMPLETED, true, none, "/u/d",
        [⟨4, "linux.pslist.PsList", RESULT_STATUS_RUNNING⟩]⟩,
       [(4, "linux.pslist.PsList")], [], none⟩ := by
  rw [C10_restart_amended
    ⟨.linux, some "b", DUMP_STATUS_CREATED, true, none, "/u/d",
      [⟨4, "linux.pslist.PsList", RESULT_STATUS_RUNNING⟩]⟩
    none [4]
    ⟨⟨"application/zip", ["/u/a", "/u/b"]⟩, none, none, .fail, .fail⟩ (by decide)]
  decide

/-- C2: a Linux dump whose eligibility check fails in a non-restart run
ends with missing-symbols set and status Completed; every Result except
the banner plugin's is set to Disabled and one high-severity (color 4)
notification is emitted; nothing is dispatched. -/
theorem C2_ineligible_linux_disables (dump : DumpState) (password : Option String)
    (inp : UztrInput) (np : String) (extraction : Option Bool)
    (hos : dump.operating_system = .linux)
    (hprep : prepPhase dump.uploadPath password inp.prep = .ok np extraction)
    (hcheck : check_runnable
        (bannerPhase { dump with uploadPath := np } inp.bannerFromIndex).operating_system
        (bannerPhase { dump with uploadPath := np } inp.bannerFromIndex).banner
        inp.availableBanners = false) :
    let out := unzip_then_run dump password [] inp
    out.dump.missing_symbols = true
    ∧ out.dump.status = DUMP_STATUS_COMPLETED
    ∧ (∀ r ∈ out.dump.results, r.pluginName ≠ BANNERS_PLUGIN →
        r.result = RESULT_STATUS_DISABLED)
    ∧ out.notifications = [("Missing symbols all plugin are disabled", 4)]
    ∧ out.submitted = [] := by
  intro out
  have hout : out =
      ⟨(disablePhase (bannerPhase { dump with uploadPath := np } inp.bannerFromIndex)
          inp.ubuntuFetch inp.debianFetch).1, [],
        (disablePhase (bannerPhase { dump with uploadPath := np } inp.bannerFromIndex)
          inp.ubuntuFetch inp.debianFetch).2, extraction⟩ := by
    show unzip_then_run dump password [] inp = _
    unfold unzip_then_run
    rw [if_pos (show (List.isEmpty ([] : List Nat)) = true from rfl), hprep]
    dsimp only
    rw [if_neg (by rw [hcheck]; simp)]
  rw [hout]
  set d2 := bannerPhase { dump with uploadPath := np } inp.bannerFromIndex with hd2
  have hos2 : d2.operating_system = OS.linux := by
    rw [hd2, bannerPhase_operating_system]
    exact hos
  unfold disablePhase
  split
  all_goals
    refine ⟨rfl, rfl, ?_, rfl, rfl⟩
  all_goals
    intro r hr hname
    simp only [List.mem_map] at hr
    obtain ⟨a, ha, hfa⟩ := hr
    by_cases hcond : d2.operating_system ≠ OS.linux ∨ a.pluginName ≠ BANNERS_PLUGIN
  · rw [if_pos hcond] at hfa
    rw [← hfa]
  · rw [if_neg hcond] at hfa
    push_neg at hcond
    exact absurd (hfa ▸ hcond.2) hname
  · rw [if_pos hcond] at hfa
    rw [← hfa]
  · rw [if_neg hcond] at hfa
    push_neg at hcond
    exact absurd (hfa ▸ hcond.2) hname

/-- Witness for C2 at a concrete Linux dump with no banner and no
locally available symbols. -/
theorem C2_ineligible_linux_disables_witness :
    (unzip_then_run
      ⟨.linux, none, DUMP_STATUS_CREATED, false, none, "/u/d",
        [⟨3, "banners.Banners", RESULT_STATUS_RUNNING⟩,
         ⟨4, "linux.pslist.PsList", RESULT_STATUS_RUNNING⟩]⟩
      none []
      ⟨⟨"application/octet-stream", []⟩, none, none, .fail, .fail⟩).dump.missing_symbols
      = true := by
  exact (C2_ineligible_linux_disables
    ⟨.linux, none, DUMP_STATUS_CREATED, false, none, "/u/d",
      [⟨3, "banners.Banners", RESULT_STATUS_RUNNING⟩,
       ⟨4, "linux.pslist.PsList", RESULT_STATUS_RUNNING⟩]⟩
    none
    ⟨⟨"application/octet-stream", []⟩, none, none, .fail, .fail⟩
    "/u/d" none rfl (by decide) (by decide)).1

/-- Any file picked by the `.vmem` loop has a `.vmem`-suffixed name
(invariant of the fold, for any accumulator already satisfying it). -/
theorem choose_vmem_fold_endsWith (files : List String) :
    ∀ acc, (∀ a, acc = some a → strEndsWith (strToLower a) ".vmem" = true) →
      ∀ v, files.foldl
          (fun acc x => if strEndsWith (strToLower x) ".vmem" then some x else acc)
          acc = some v →
        strEndsWith (strToLower v) ".vmem" = true := by
  induction files with
  | nil => exact fun acc hacc v hv => hacc v hv
  | cons f fs ih =>
    intro acc hacc v hv
    refine ih _ ?_ v hv
    intro a ha
    dsimp only at ha
    by_cases hf : strEndsWith (strToLower f) ".vmem" = true
    · rw [if_pos hf] at ha
      cases ha
      exact hf
    · rw [if_neg hf] at ha
      exact hacc a ha

/-- When no extracted file has a `.vmem`-suffixed name the loop leaves
`newpath` unset. -/
theorem choose_vmem_eq_none (files : List String)
    (h : ∀ f ∈ files, strEndsWith (strToLower f) ".vmem" = false) :
    choose_vmem files = none := by
  unfold choose_vmem
  induction files with
  | nil => rfl
  | cons f fs ih =>
    have hf : strEndsWith (strToLower f) ".vmem" = false :=
      h f (List.mem_cons_self f fs)
    show List.foldl _ (if strEndsWith (strToLower f) ".vmem" then some f else none) fs = none
    rw [if_neg (by rw [hf]; simp)]
    exact ih (fun g hg => h g (List.mem_cons_of_mem f hg))

/-- C7: in a non-restart run on a content-sniffed archive, extraction
runs 7z with the supplied password exactly when a (non-empty) one is
present; a single extracted file is accepted unconditionally; with more
than one extracted file a `.vmem`-named file is chosen, and if none
exists the dump is marked Error and nothing is dispatched. -/
theorem C7_archive_preparation (dump : DumpState) (password : Option String)
    (inp : UztrInput)
    (harc : ARCHIVE_TYPES.contains inp.prep.filetype = true) :
    let out := unzip_then_run dump password [] inp
    out.extraction = some (pyTruthyStr password)
    ∧ (∀ f, inp.prep.extractedFiles = [f] → out.dump.uploadPath = f)
    ∧ (∀ v, inp.prep.extractedFiles.length > 1 →
        choose_vmem inp.prep.extractedFiles = some v →
        out.dump.uploadPath = v ∧ strEndsWith (strToLower v) ".vmem" = true)
    ∧ (inp.prep.extractedFiles.length > 1 →
        (∀ f ∈ inp.prep.extractedFiles, strEndsWith (strToLower f) ".vmem" = false) →
        out.dump.status = DUMP_STATUS_ERROR ∧ out.submitted = []
          ∧ out.notifications = []) := by
  intro out
  have hprep : prepPhase dump.uploadPath password inp.prep =
      (match (if inp.prep.extractedFiles.length = 1 then inp.prep.extractedFiles.head?
        else if inp.prep.extractedFiles.length > 1 then choose_vmem inp.prep.extractedFiles
        else none) with
      | none => PrepResult.invalid (pyTruthyStr password)
      | some np => PrepResult.ok np (some (pyTruthyStr password))) := by
    unfold prepPhase
    rw [if_pos (by rw [harc])]
  have houtPath : ∀ np,
      prepPhase dump.uploadPath password inp.prep
        = PrepResult.ok np (some (pyTruthyStr password)) →
      out.dump.uploadPath = np ∧ out.extraction = some (pyTruthyStr password) := by
    intro np hp
    show (unzip_then_run dump password [] inp).dump.uploadPath = np ∧
      (unzip_then_run dump password [] inp).extraction = some (pyTruthyStr password)
    unfold unzip_then_run
    rw [if_pos (show (List.isEmpty ([] : List Nat)) = true from rfl), hp]
    dsimp only
    cases hc : check_runnable
        (bannerPhase { dump with uploadPath := np } inp.bannerFromIndex).operating_system
        (bannerPhase { dump with uploadPath := np } inp.bannerFromIndex).banner
        inp.availableBanners with
    | true =>
      rw [if_pos (show (true = true) from rfl)]
      exact ⟨bannerPhase_uploadPath _ _, rfl⟩
    | false =>
      rw [if_neg (show ¬(false = true) by simp)]
      refine ⟨?_, rfl⟩
      rw [disablePhase_uploadPath, bannerPhase_uploadPath]
  refine ⟨?_, ?_, ?_, ?_⟩
  · cases hnp : (if inp.prep.extractedFiles.length = 1 then inp.prep.extractedFiles.head?
        else if inp.prep.extractedFiles.length > 1 then choose_vmem inp.prep.extractedFiles
        else none) with
    | none =>
      rw [hnp] at hprep
      show (unzip_then_run dump password [] inp).extraction = some (pyTruthyStr password)
      unfold unzip_then_run
      rw [if_pos (show (List.isEmpty ([] : List Nat)) = true from rfl), hprep]
    | some np =>
      rw [hnp] at hprep
      exact (houtPath np hprep).2
  · intro f hf
    have hp : prepPhase dump.uploadPath password inp.prep
        = PrepResult.ok f (some (pyTruthyStr password)) := by
      rw [hprep, hf]
      rfl
    exact (houtPath f hp).1
  · intro v hlen hv
    have hone : ¬ inp.prep.extractedFiles.length = 1 := by omega
    have hp : prepPhase dump.uploadPath password inp.prep
        = PrepResult.ok v (some (pyTruthyStr password)) := by
      rw [hprep, if_neg hone, if_pos hlen, hv]
    refine ⟨(houtPath v hp).1, ?_⟩
    refine choose_vmem_fold_endsWith inp.prep.extractedFiles none ?_ v hv
    intro a ha
    cases ha
  · intro hlen hall
    have hone : ¬ inp.prep.extractedFiles.length = 1 := by omega
    have hp : prepPhase dump.uploadPath password inp.prep
        = PrepResult.invalid (pyTruthyStr password) := by
      rw [hprep, if_neg hone, if_pos hlen, choose_vmem_eq_none _ hall]
    show (unzip_then_run dump password [] inp).dump.status = DUMP_STATUS_ERROR ∧
      (unzip_then_run dump password [] inp).submitted = [] ∧
      (unzip_then_run dump password [] inp).notifications = []
    unfold unzip_then_run
    rw [if_pos (show (List.isEmpty ([] : List Nat)) = true from rfl), hp]
    exact ⟨rfl, rfl, rfl⟩

/-- Witness for C7 at a concrete password-protected zip with two
extracted files, one of them a `.vmem`. -/
theorem C7_archive_preparation_witness :
    (unzip_then_run
      ⟨.windows, none, DUMP_STATUS_CREATED, false, none, "/u/d.zip",
        [⟨4, "windows.pslist.PsList", RESULT_STATUS_RUNNING⟩]⟩
      (some "pw") []
      ⟨⟨"application/zip", ["/u/notes.txt", "/u/image.VMEM"]⟩, none, none,
        .fail, .fail⟩).dump.uploadPath = "/u/image.VMEM" := by
  exact ((C7_archive_preparation
    ⟨.windows, none, DUMP_STATUS_CREATED, false, none, "/u/d.zip",
      [⟨4, "windows.pslist.PsList", RESULT_STATUS_RUNNING⟩]⟩
    (some "pw")
    ⟨⟨"application/zip", ["/u/notes.txt", "/u/image.VMEM"]⟩, none, none,
      .fail, .fail⟩ (by decide)).2.2.1 "/u/image.VMEM" (by decide) (by decide)).1

end Orochi
